import Mathlib

/-!
Verification development for the namegiver repository: a shallow embedding of
the similarity filter, the bounded retry name generator, the project store
(categories of name/description entries with token-usage accounting), and the
JSON save/load round trip, together with theorems settling the spec claims.

Python dictionaries are modelled as association lists with insertion-order
semantics: updating an existing key rewrites its value in place, inserting a
fresh key appends at the end.  The external OpenAI provider is modelled as an
oracle indexed by call number; each call either raises or returns a response
carrying a list of choice contents and an optional reported token usage.
-/

namespace Namegiver

/-- Characters stripped by the Python str.strip calls used in the code. -/
def pyIsSpace (c : Char) : Bool :=
  c = ' ' || c = '\t' || c = '\n' || c = '\r'

/-- Python str.strip: drop leading and trailing whitespace characters. -/
def stripChars (cs : List Char) : List Char :=
  ((cs.dropWhile pyIsSpace).reverse.dropWhile pyIsSpace).reverse

/-- Python str.strip lifted to strings. -/
def pyStrip (s : String) : String :=
  String.mk (stripChars s.data)

/-- Python str.lower restricted to ASCII letters, as used on the name strings. -/
def lowerChar (c : Char) : Char :=
  if 'A' ≤ c && c ≤ 'Z' then Char.ofNat (c.toNat + 32) else c

/-- Python new_name.lower() viewed as a character list. -/
def pyLower (s : String) : List Char :=
  s.data.map lowerChar

/-- Fueled Levenshtein edit distance; the fuel argument only drives structural
recursion and is always sufficient at the wrapper below. -/
def levAux : Nat → List Char → List Char → Nat
  | 0, _, _ => 0
  | _ + 1, [], ys => ys.length
  | _ + 1, x :: xs, [] => (x :: xs).length
  | f + 1, x :: xs, y :: ys =>
    if x = y then levAux f xs ys
    else 1 + min (levAux f xs ys) (min (levAux f (x :: xs) ys) (levAux f xs (y :: ys)))

/-- Levenshtein.distance from the python-Levenshtein dependency: the minimum
number of single-character insertions, deletions and substitutions. -/
def levenshtein (xs ys : List Char) : Nat :=
  levAux (xs.length + ys.length + 1) xs ys

/-- is_too_similar from src/namegiver/namegiver.py: true when the lowercased
candidate is within the threshold edit distance of some lowercased past name. -/
def is_too_similar (new_name : String) (past_names : List String) (threshold : Nat) : Bool :=
  past_names.any fun old => levenshtein (pyLower new_name) (pyLower old) ≤ threshold

/-- Python content.split with a newline separator: non-collapsing split. -/
def splitNL : List Char → List (List Char)
  | [] => [[]]
  | c :: rest =>
    if c = '\n' then [] :: splitNL rest
    else
      match splitNL rest with
      | h :: t => (c :: h) :: t
      | [] => [[c]]

/-- The candidate-name parsing in batch_generate_names: strip the response,
split on newlines, strip each line and keep only the non-empty ones. -/
def parseNames (content : String) : List String :=
  (((splitNL (pyStrip content).data).map fun cs => pyStrip (String.mk cs)).filter
    fun s => s ≠ "")

/-! ## Python dictionaries as insertion-ordered association lists -/

/-- Python d[k] lookup returning an option. -/
def dictFind {α : Type} : List (String × α) → String → Option α
  | [], _ => none
  | (k, v) :: rest, key => if k = key then some v else dictFind rest key

/-- Python d[k] = v: replace in place when the key exists, append otherwise. -/
def dictInsert {α : Type} : List (String × α) → String → α → List (String × α)
  | [], key, v => [(key, v)]
  | (k, w) :: rest, key, v =>
    if k = key then (k, v) :: rest else (k, w) :: dictInsert rest key v

/-- Rewrite the value stored at a key with a function, leaving the rest alone. -/
def dictUpdate {α : Type} : List (String × α) → String → (α → α) → List (String × α)
  | [], _, _ => []
  | (k, w) :: rest, key, f =>
    if k = key then (k, f w) :: rest else (k, w) :: dictUpdate rest key f

/-- Python list(d.keys()) in insertion order. -/
def dictKeys {α : Type} (d : List (String × α)) : List String :=
  d.map Prod.fst

/-! ## The external provider oracle -/

/-- One chat-completions response: the message contents of the choices, and the
reported usage.total_tokens when the response carries a usage attribute. -/
structure ChatResponse where
  choices : List String
  usage : Option Nat
  deriving DecidableEq

/-- Outcome of one client.chat.completions.create call: a response, or a raised
transport/provider exception with its message. -/
inductive CallResult where
  | ok (resp : ChatResponse)
  | exn (msg : String)
  deriving DecidableEq

/-- Python exception kinds raised by the embedded code paths. -/
inductive PyErr where
  | valueError
  | runtimeError
  | fileNotFoundError
  | attributeError
  | typeError
  deriving DecidableEq

/-! ## generate_unique_name -/

/-- What generate_unique_name hands back: an accepted name, the textual error
value built from a caught exception, or None after exhausting the attempts. -/
inductive GenResult where
  | found (nm : String)
  | errorText (msg : String)
  | noResult
  deriving DecidableEq

/-- Result of a generate_unique_name run together with the final state of the
process-wide token tracker and the number of provider calls issued. -/
structure GenOutcome where
  result : GenResult
  tracker : Nat
  calls : Nat
  deriving DecidableEq

/-- The retry loop of generate_unique_name: attempts remaining, next call
index, current tracker total.  Each iteration issues one provider call; a
raised exception (including the empty-choices ValueError) is caught and turned
into an error string; a successful response first records its usage and is then
accepted unless too similar to the past names. -/
def genLoop (past_names : List String) (provider : Nat → CallResult) :
    Nat → Nat → Nat → GenOutcome
  | 0, i, t => ⟨.noResult, t, i⟩
  | n + 1, i, t =>
    match provider i with
    | .exn msg => ⟨.errorText ("Error generating name: " ++ msg), t, i + 1⟩
    | .ok resp =>
      match resp.choices with
      | [] => ⟨.errorText "Error generating name: Invalid API response", t, i + 1⟩
      | c :: _ =>
        let generated_name := pyStrip c
        let t1 := match resp.usage with
          | some u => t + u
          | none => t
        if is_too_similar generated_name past_names 2 then
          genLoop past_names provider n (i + 1) t1
        else
          ⟨.found generated_name, t1, i + 1⟩

/-- generate_unique_name from src/namegiver/namegiver.py.  The api_key flag is
the OPENAI_API_KEY environment check; a missing key raises ValueError before
any provider call.  max_attempts is a Python int, so it may be negative; the
range loop then runs zero times. -/
def generate_unique_name (api_key : Bool) (past_names : Option (List String))
    (max_attempts : Int) (provider : Nat → CallResult) (tracker : Nat) :
    Except PyErr GenOutcome :=
  if !api_key then .error .valueError
  else .ok (genLoop (past_names.getD []) provider max_attempts.toNat 0 tracker)

/-! ## The project store (src/namegiver/projects.py) -/

/-- NameProject: name, description, categories mapping category labels to
name/description dictionaries, and the per-project token usage counter. -/
structure NameProject where
  name : String
  description : String
  categories : List (String × List (String × String))
  token_usage : Nat
  deriving DecidableEq

/-- NameProject.add_category: no-op when the category already exists,
otherwise bind it to an empty dictionary. -/
def add_category (p : NameProject) (category : String) : NameProject :=
  if (dictFind p.categories category).isSome then p
  else { p with categories := dictInsert p.categories category [] }

/-- NameProject.add_name as a state transformer: raise ValueError when the
category is absent (returning the project untouched), otherwise store the
description under the name, overwriting any previous one. -/
def add_name (p : NameProject) (category nm description : String) :
    Except PyErr Unit × NameProject :=
  match dictFind p.categories category with
  | none => (.error .valueError, p)
  | some _ =>
    (.ok (),
     { p with categories :=
        dictUpdate p.categories category fun inner => dictInsert inner nm description })

/-- NameProject.get_names: the keys of the category dictionary, or ValueError
when the category is absent.  Read-only. -/
def get_names (p : NameProject) (category : String) : Except PyErr (List String) :=
  match dictFind p.categories category with
  | none => .error .valueError
  | some inner => .ok (dictKeys inner)

/-- NameProject.get_description: the stored description, or ValueError when the
category or the name is absent.  Read-only. -/
def get_description (p : NameProject) (category nm : String) : Except PyErr String :=
  match dictFind p.categories category with
  | none => .error .valueError
  | some inner =>
    match dictFind inner nm with
    | none => .error .valueError
    | some d => .ok d

/-- One iteration of the name loop in batch_generate_names: a candidate that
is not too similar to the pre-call past names is stored (with a generated
description when requested, whose usage goes to the shared tracker); a similar
candidate is skipped.  The state is the category dictionary together with the
description usage accumulated so far. -/
def batchStep (past_names : List String) (should_generate_descriptions : Bool)
    (descFor : String → String × Nat) (st : List (String × String) × Nat)
    (nm : String) : List (String × String) × Nat :=
  if !is_too_similar nm past_names 2 then
    let dd := if should_generate_descriptions then descFor nm else ("", 0)
    (dictInsert st.1 nm dd.1, st.2 + dd.2)
  else st

/-- NameProject.batch_generate_names.  The count argument only shapes the
prompt text and is absorbed into the provider oracle.  descFor models
generate_description for one name: the text stored as the description and the
usage it adds to the process-wide tracker (generate_description never raises).
A missing category raises ValueError before the provider call; a provider
exception, and the ValueError raised on an empty choices list, are re-raised as
RuntimeError.  On success: the first choice is parsed into candidate names, the
single call usage is added to both the tracker and the project token_usage,
each candidate passing the similarity test against the pre-call name list is
inserted, and the full parsed candidate list is returned. -/
def batch_generate_names (p : NameProject) (tracker : Nat) (category : String)
    (response : CallResult) (should_generate_descriptions : Bool)
    (descFor : String → String × Nat) :
    Except PyErr (List String × NameProject × Nat) :=
  match dictFind p.categories category with
  | none => .error .valueError
  | some inner =>
    let past_names := dictKeys inner
    match response with
    | .exn _ => .error .runtimeError
    | .ok resp =>
      match resp.choices with
      | [] => .error .runtimeError
      | c :: _ =>
        let generated_names := parseNames c
        let usage := match resp.usage with
          | some u => u
          | none => 0
        let r := generated_names.foldl
          (batchStep past_names should_generate_descriptions descFor) (inner, 0)
        .ok (generated_names,
             { p with
                token_usage := p.token_usage + usage,
                categories := dictUpdate p.categories category fun _ => r.1 },
             tracker + usage + r.2)

/-! ## Persistence: save_project / load_project -/

/-- Parsed JSON values.  Objects produced by the json module have unique keys
(the parser collapses duplicates), which theorems assume where needed. -/
inductive Json where
  | null
  | bool (b : Bool)
  | num (n : Int)
  | str (s : String)
  | arr (xs : List Json)
  | obj (fields : List (String × Json))

/-- save_project: the JSON document json.dump writes for a project. -/
def save_project (p : NameProject) : Json :=
  .obj
    [("name", .str p.name),
     ("description", .str p.description),
     ("categories",
      .obj (p.categories.map fun ci =>
        (ci.1, Json.obj (ci.2.map fun nd => (nd.1, Json.str nd.2))))),
     ("token_usage", .num p.token_usage)]

/-- The file system as seen through open/json.load: a path maps to nothing
(missing file), to a file whose text fails to parse as JSON, or to the parsed
JSON value. -/
def FileSystem : Type := String → Option (Option Json)

/-- Writing the save_project document to a path: the saved JSON always parses
back. -/
def write_file (fs : FileSystem) (path : String) (j : Json) : FileSystem :=
  fun q => if q = path then some (some j) else fs q

/-- The project load_project builds.  Python is dynamically typed, so the
fields read from the file keep their JSON values: a file may carry non-string
names or descriptions and still load. -/
structure LoadedProject where
  name : Json
  description : Json
  categories : List (String × List (String × Json))
  token_usage : Json

/-- A NameProject viewed as the result of loading it back: the same name,
description, per-category name/description entries and token usage. -/
def toLoaded (p : NameProject) : LoadedProject :=
  { name := .str p.name,
    description := .str p.description,
    categories := p.categories.map fun ci =>
      (ci.1, ci.2.map fun nd => (nd.1, Json.str nd.2)),
    token_usage := .num p.token_usage }

/-- The category-replay loop of load_project: for each persisted category run
add_category, then add_name for every entry of its dictionary.  A category
value that is not a JSON object (for instance the legacy list-of-names schema)
hits names_dict.items() and raises AttributeError, which the except clause of
load_project does not catch. -/
def load_cats : List (String × Json) → List (String × List (String × Json)) →
    Except PyErr (List (String × List (String × Json)))
  | [], acc => .ok acc
  | (category, v) :: rest, acc =>
    let acc1 := if (dictFind acc category).isSome then acc
      else dictInsert acc category []
    match v with
    | .obj entries =>
      load_cats rest
        (entries.foldl
          (fun dd nd => dictUpdate dd category fun inner => dictInsert inner nd.1 nd.2)
          acc1)
    | _ => .error .attributeError

/-- load_project: a missing path raises FileNotFoundError; a file that fails
json.load raises JSONDecodeError, caught and re-raised as ValueError; indexing
a non-object top level with a string key raises TypeError (uncaught); a missing
name or categories key raises KeyError, caught and re-raised as ValueError; a
categories value that is not an object, or a category whose value is not an
object, raises AttributeError (uncaught).  description and token_usage are read
with dict.get defaults. -/
def load_project (fs : FileSystem) (path : String) : Except PyErr LoadedProject :=
  match fs path with
  | none => .error .fileNotFoundError
  | some none => .error .valueError
  | some (some data) =>
    match data with
    | .obj fields =>
      match dictFind fields "name" with
      | none => .error .valueError
      | some nameJ =>
        match dictFind fields "categories" with
        | none => .error .valueError
        | some catsJ =>
          match catsJ with
          | .obj cats =>
            match load_cats cats [] with
            | .error e => .error e
            | .ok cmap =>
              .ok
                { name := nameJ,
                  description := (dictFind fields "description").getD (.str ""),
                  categories := cmap,
                  token_usage := (dictFind fields "token_usage").getD (.num 0) }
          | _ => .error .attributeError
    | _ => .error .typeError

/-! ## Supporting lemmas -/

theorem levAux_self (xs : List Char) : ∀ (f : Nat), xs.length < f → levAux f xs xs = 0 := by
  induction xs with
  | nil =>
    intro f hf
    match f, hf with
    | f' + 1, _ => rfl
  | cons x t ih =>
    intro f hf
    match f, hf with
    | f' + 1, hf =>
      show levAux (f' + 1) (x :: t) (x :: t) = 0
      simp only [levAux, if_pos rfl]
      exact ih f' (by simpa using Nat.lt_of_succ_lt_succ hf)

theorem levenshtein_self (xs : List Char) : levenshtein xs xs = 0 :=
  levAux_self xs (xs.length + xs.length + 1) (by omega)

end Namegiver

namespace Namegiver

/-- C3: worked examples of the similarity filter, actual behavior.  The call
is_too_similar("John", ["Jon"], 2) returns true as the claim states, but
is_too_similar("Alexander", ["Alexandra"], 2) also returns true: the
Levenshtein distance of the lowercased names is 2, which does not exceed the
threshold 2 (the claimed distance 3 is incorrect). -/
theorem is_too_similar_worked_examples_actual :
    is_too_similar "John" ["Jon"] 2 = true ∧
    is_too_similar "Alexander" ["Alexandra"] 2 = true ∧
    levenshtein (pyLower "Alexander") (pyLower "Alexandra") = 2 := by
  decide

/-- C3 counterexample: the claim states that is_too_similar("Alexander",
["Alexandra"], 2) returns false; on the code it returns true. -/
theorem is_too_similar_alexander_refuted :
    is_too_similar "Alexander" ["Alexandra"] 2 = true := by
  decide

/-- C9: similarity-filter edge cases.  An empty reference list always yields
false for every non-negative threshold, and a reference list containing a
string whose lowercasing equals the lowercased candidate yields true for every
non-negative threshold, since the self edit distance is 0. -/
theorem is_too_similar_edge_cases :
    (∀ (s : String) (threshold : Nat), is_too_similar s [] threshold = false) ∧
    (∀ (s r : String) (l : List String) (threshold : Nat),
      r ∈ l → pyLower r = pyLower s → is_too_similar s l threshold = true) := by
  constructor
  · intro s threshold
    rfl
  · intro s r l threshold hmem hlow
    unfold is_too_similar
    refine List.any_eq_true.mpr ⟨r, hmem, ?_⟩
    rw [hlow, levenshtein_self]
    exact decide_eq_true (Nat.zero_le threshold)

/-- C9 witness at concrete inputs. -/
theorem is_too_similar_edge_cases_witness :
    is_too_similar "Bob" [] 5 = false ∧ is_too_similar "Bob" ["bOB"] 0 = true :=
  ⟨is_too_similar_edge_cases.1 "Bob" 5,
   is_too_similar_edge_cases.2 "Bob" "bOB" ["bOB"] 0 (by decide) (by decide)⟩

/-- C10: with the credential configured and max_attempts at most 0, the range
loop of generate_unique_name runs zero times, so it returns None immediately,
issues no provider call, and leaves the shared tracker unchanged. -/
theorem generate_unique_name_nonpositive_attempts
    (past_names : Option (List String)) (provider : Nat → CallResult)
    (tracker : Nat) (max_attempts : Int) (hm : max_attempts ≤ 0) :
    generate_unique_name true past_names max_attempts provider tracker =
      .ok ⟨.noResult, tracker, 0⟩ := by
  have h0 : max_attempts.toNat = 0 := Int.toNat_eq_zero.mpr hm
  simp [generate_unique_name, h0, genLoop]

/-- C10 witness at concrete inputs. -/
theorem generate_unique_name_nonpositive_attempts_witness :
    generate_unique_name true none (-1) (fun _ => .exn "boom") 5 =
      .ok ⟨.noResult, 5, 0⟩ :=
  generate_unique_name_nonpositive_attempts none (fun _ => .exn "boom") 5 (-1)
    (by decide)

/-- C7: NotFound errors without mutation.  On a non-existent category, add_name
raises ValueError and hands the project back untouched, and get_names and
get_description raise ValueError; get_description also raises ValueError when
the category exists but the name does not.  get_names and get_description are
read-only by construction. -/
theorem project_lookup_notfound (p : NameProject) (category nm d : String) :
    (dictFind p.categories category = none →
      add_name p category nm d = (.error .valueError, p) ∧
      get_names p category = .error .valueError ∧
      get_description p category nm = .error .valueError) ∧
    (∀ inner, dictFind p.categories category = some inner →
      dictFind inner nm = none →
      get_description p category nm = .error .valueError) := by
  constructor
  · intro h
    refine ⟨?_, ?_, ?_⟩ <;> simp [add_name, get_names, get_description, h]
  · intro inner h1 h2
    simp [get_description, h1, h2]

/-- C7 witness at concrete inputs. -/
theorem project_lookup_notfound_witness :
    add_name ⟨"P", "", [("c", [("a", "x")])], 0⟩ "z" "n" "" =
      (.error .valueError, ⟨"P", "", [("c", [("a", "x")])], 0⟩) ∧
    get_names ⟨"P", "", [("c", [("a", "x")])], 0⟩ "z" = .error .valueError ∧
    get_description ⟨"P", "", [("c", [("a", "x")])], 0⟩ "z" "n" = .error .valueError ∧
    get_description ⟨"P", "", [("c", [("a", "x")])], 0⟩ "c" "b" = .error .valueError :=
  ⟨((project_lookup_notfound ⟨"P", "", [("c", [("a", "x")])], 0⟩ "z" "n" "").1 rfl).1,
   ((project_lookup_notfound ⟨"P", "", [("c", [("a", "x")])], 0⟩ "z" "n" "").1 rfl).2.1,
   ((project_lookup_notfound ⟨"P", "", [("c", [("a", "x")])], 0⟩ "z" "n" "").1 rfl).2.2,
   (project_lookup_notfound ⟨"P", "", [("c", [("a", "x")])], 0⟩ "c" "b" "").2
     [("a", "x")] rfl rfl⟩

theorem genLoop_all_rejected (past : List String) (nm : Nat → String)
    (u : Nat → Nat) (provider : Nat → CallResult) :
    ∀ (n i t : Nat),
      (∀ j, j < n → provider (i + j) = .ok ⟨[nm (i + j)], some (u (i + j))⟩) →
      (∀ j, j < n → is_too_similar (pyStrip (nm (i + j))) past 2 = true) →
      genLoop past provider n i t =
        ⟨.noResult, t + ∑ j ∈ Finset.range n, u (i + j), i + n⟩ := by
  intro n
  induction n with
  | zero =>
    intro i t _ _
    simp [genLoop]
  | succ n ih =>
    intro i t hp hr
    have hp0 : provider i = .ok ⟨[nm i], some (u i)⟩ := by
      simpa using hp 0 (Nat.succ_pos n)
    have hr0 : is_too_similar (pyStrip (nm i)) past 2 = true := by
      simpa using hr 0 (Nat.succ_pos n)
    have hrec := ih (i + 1) (t + u i)
      (fun j hj => by
        have := hp (j + 1) (Nat.succ_lt_succ hj)
        simpa [Nat.add_assoc, Nat.add_comm 1 j] using this)
      (fun j hj => by
        have := hr (j + 1) (Nat.succ_lt_succ hj)
        simpa [Nat.add_assoc, Nat.add_comm 1 j] using this)
    have hsum : ∑ j ∈ Finset.range (n + 1), u (i + j) =
        (∑ j ∈ Finset.range n, u (i + 1 + j)) + u i := by
      rw [Finset.sum_range_succ']
      have h2 : (∑ j ∈ Finset.range n, u (i + (j + 1))) =
          ∑ j ∈ Finset.range n, u (i + 1 + j) :=
        Finset.sum_congr rfl fun j _ => congrArg u (by omega)
      rw [h2]
      simp
    simp only [genLoop, hp0, hr0, if_true]
    rw [hrec]
    refine congrArg₂ _ ?_ (by omega)
    rw [hsum]
    omega

/-- C2: retry exhaustion of generate_unique_name.  With the credential
configured, every provider call returning a usable response whose reported
usage is recorded, and every returned name rejected by the similarity filter,
the loop issues exactly max_attempts provider calls, returns None rather than
an error, and the shared tracker has accumulated the usage of all
max_attempts calls. -/
theorem generate_unique_name_retry_exhaustion (past : List String)
    (nm : Nat → String) (u : Nat → Nat) (provider : Nat → CallResult)
    (tracker : Nat) (max_attempts : Nat)
    (hp : ∀ j, j < max_attempts → provider j = .ok ⟨[nm j], some (u j)⟩)
    (hr : ∀ j, j < max_attempts → is_too_similar (pyStrip (nm j)) past 2 = true) :
    generate_unique_name true (some past) (max_attempts : Int) provider tracker =
      .ok ⟨.noResult, tracker + ∑ j ∈ Finset.range max_attempts, u j,
           max_attempts⟩ := by
  have h := genLoop_all_rejected past nm u provider max_attempts 0 tracker
    (fun j hj => by simpa using hp j hj) (fun j hj => by simpa using hr j hj)
  simp only [generate_unique_name, Bool.not_true, Bool.false_eq_true, if_false,
    Option.getD_some, Int.toNat_natCast]
  rw [h]
  simp

/-- C2 witness: two attempts, both rejected, usage 7 each. -/
theorem generate_unique_name_retry_exhaustion_witness :
    generate_unique_name true (some ["Jon"]) ((2 : Nat) : Int)
      (fun _ => .ok ⟨["Jon"], some 7⟩) 0 = .ok ⟨.noResult, 14, 2⟩ := by
  have hd : is_too_similar (pyStrip "Jon") ["Jon"] 2 = true := by decide
  have h := generate_unique_name_retry_exhaustion ["Jon"] (fun _ => "Jon")
    (fun _ => 7) (fun _ => .ok ⟨["Jon"], some 7⟩) 0 2
    (fun _ _ => rfl) (fun _ _ => hd)
  simpa using h

theorem dictFind_dictInsert_isSome {α : Type} (d : List (String × α))
    (k k' : String) (v : α) :
    (dictFind (dictInsert d k v) k').isSome ↔ (dictFind d k').isSome ∨ k' = k := by
  induction d with
  | nil =>
    by_cases h : k = k'
    · subst h
      simp [dictInsert, dictFind]
    · have h' : ¬(k' = k) := fun hh => h hh.symm
      simp [dictInsert, dictFind, h, h']
  | cons a rest ih =>
    obtain ⟨ka, va⟩ := a
    by_cases h1 : ka = k
    · rw [show dictInsert ((ka, va) :: rest) k v = (ka, v) :: rest by
        simp [dictInsert, h1]]
      by_cases h2 : ka = k'
      · simp [dictFind, h2]
      · have h3 : ¬(k' = k) := fun hh => h2 (h1.trans hh.symm)
        simp [dictFind, h2, h3]
    · rw [show dictInsert ((ka, va) :: rest) k v = (ka, va) :: dictInsert rest k v by
        simp [dictInsert, h1]]
      by_cases h2 : ka = k'
      · simp [dictFind, h2]
      · simp [dictFind, h2, ih]

theorem dictFind_dictUpdate_self {α : Type} (d : List (String × α))
    (k : String) (f : α → α) (v : α) (h : dictFind d k = some v) :
    dictFind (dictUpdate d k f) k = some (f v) := by
  induction d with
  | nil => simp [dictFind] at h
  | cons a rest ih =>
    obtain ⟨ka, va⟩ := a
    by_cases h1 : ka = k
    · simp [dictFind, h1] at h
      simp [dictUpdate, dictFind, h1, h]
    · simp [dictFind, h1] at h
      simp [dictUpdate, dictFind, h1, ih h]

theorem batchStep_fold_find (past : List String) (should : Bool)
    (descFor : String → String × Nat) :
    ∀ (l : List String) (b : List (String × String)) (dacc : Nat) (k : String),
      (dictFind (l.foldl (batchStep past should descFor) (b, dacc)).1 k).isSome ↔
        (dictFind b k).isSome ∨ (k ∈ l ∧ is_too_similar k past 2 = false) := by
  intro l
  induction l with
  | nil =>
    intro b dacc k
    simp
  | cons h t ih =>
    intro b dacc k
    by_cases hs : is_too_similar h past 2 = true
    · have hstep : batchStep past should descFor (b, dacc) h = (b, dacc) := by
        simp [batchStep, hs]
      rw [List.foldl_cons, hstep, ih]
      constructor
      · rintro (hb | ⟨hmem, hsim⟩)
        · exact Or.inl hb
        · exact Or.inr ⟨List.mem_cons_of_mem h hmem, hsim⟩
      · rintro (hb | ⟨hmem, hsim⟩)
        · exact Or.inl hb
        · rcases List.mem_cons.mp hmem with heq | hmem2
          · rw [heq] at hsim
            rw [hsim] at hs
            exact absurd hs (by simp)
          · exact Or.inr ⟨hmem2, hsim⟩
    · have hs2 : is_too_similar h past 2 = false := by
        revert hs
        cases is_too_similar h past 2 <;> simp
      have hstep : batchStep past should descFor (b, dacc) h =
          (dictInsert b h (if should then descFor h else ("", 0)).1,
           dacc + (if should then descFor h else ("", 0)).2) := by
        simp [batchStep, hs2]
      rw [List.foldl_cons, hstep, ih, dictFind_dictInsert_isSome]
      constructor
      · rintro ((hb | hk) | ⟨hmem, hsim⟩)
        · exact Or.inl hb
        · exact Or.inr ⟨by simp [hk], by rw [hk]; exact hs2⟩
        · exact Or.inr ⟨List.mem_cons_of_mem h hmem, hsim⟩
      · rintro (hb | ⟨hmem, hsim⟩)
        · exact Or.inl (Or.inl hb)
        · rcases List.mem_cons.mp hmem with heq | hmem2
          · exact Or.inl (Or.inr heq)
          · exact Or.inr ⟨hmem2, hsim⟩

theorem batchStep_fold_snd (past : List String)
    (descFor : String → String × Nat) :
    ∀ (l : List String) (b : List (String × String)) (dacc : Nat),
      (l.foldl (batchStep past false descFor) (b, dacc)).2 = dacc := by
  intro l
  induction l with
  | nil =>
    intro b dacc
    rfl
  | cons h t ih =>
    intro b dacc
    rw [List.foldl_cons]
    by_cases hs : is_too_similar h past 2 = true
    · have hstep : batchStep past false descFor (b, dacc) h = (b, dacc) := by
        simp [batchStep, hs]
      rw [hstep, ih]
    · have hs2 : is_too_similar h past 2 = false := by
        revert hs
        cases is_too_similar h past 2 <;> simp
      have hstep : batchStep past false descFor (b, dacc) h =
          (dictInsert b h "", dacc) := by
        simp [batchStep, hs2]
      rw [hstep, ih]

theorem batch_generate_names_ok (p : NameProject) (tracker : Nat)
    (category : String) (inner : List (String × String)) (content : String)
    (rest : List String) (usage : Option Nat) (should : Bool)
    (descFor : String → String × Nat)
    (hc : dictFind p.categories category = some inner) :
    batch_generate_names p tracker category (.ok ⟨content :: rest, usage⟩)
        should descFor =
      .ok (parseNames content,
        { p with
            token_usage := p.token_usage + usage.getD 0,
            categories := dictUpdate p.categories category fun _ =>
              ((parseNames content).foldl
                (batchStep (dictKeys inner) should descFor) (inner, 0)).1 },
        tracker + usage.getD 0 +
          ((parseNames content).foldl
            (batchStep (dictKeys inner) should descFor) (inner, 0)).2) := by
  cases usage <;> simp [batch_generate_names, hc]

/-- C4 (amended): on a successful provider response, batch_generate_names
returns the full parsed candidate list (trimmed non-empty lines), including
candidates rejected by the similarity filter; only the candidates that pass
the similarity test against the pre-call name set are inserted into the
category.  A candidate is present afterwards exactly when it was already
present or it was parsed and accepted. -/
theorem batch_generate_names_returns_all_candidates (p : NameProject)
    (tracker : Nat) (category : String) (inner : List (String × String))
    (content : String) (rest : List String) (usage : Option Nat) (should : Bool)
    (descFor : String → String × Nat)
    (hc : dictFind p.categories category = some inner) :
    ∃ p2 tr2 inner2,
      batch_generate_names p tracker category (.ok ⟨content :: rest, usage⟩)
          should descFor = .ok (parseNames content, p2, tr2) ∧
      dictFind p2.categories category = some inner2 ∧
      ∀ k, (dictFind inner2 k).isSome ↔
        ((dictFind inner k).isSome ∨
          (k ∈ parseNames content ∧
            is_too_similar k (dictKeys inner) 2 = false)) :=
  ⟨_, _, _,
   batch_generate_names_ok p tracker category inner content rest usage should
     descFor hc,
   dictFind_dictUpdate_self _ _ _ _ hc,
   fun k => batchStep_fold_find (dictKeys inner) should descFor
     (parseNames content) inner 0 k⟩

/-- C4 witness: category containing John, provider response Jon and Alice.
Jon is too similar to John, so it is not inserted, yet it is returned. -/
theorem batch_generate_names_returns_all_candidates_witness :
    ∃ p2 tr2 inner2,
      batch_generate_names ⟨"P", "", [("chars", [("John", "")])], 0⟩ 0 "chars"
          (.ok ⟨["Jon\nAlice"], some 10⟩) false (fun _ => ("", 0)) =
        .ok (parseNames "Jon\nAlice", p2, tr2) ∧
      dictFind p2.categories "chars" = some inner2 ∧
      ∀ k, (dictFind inner2 k).isSome ↔
        ((dictFind [("John", "")] k).isSome ∨
          (k ∈ parseNames "Jon\nAlice" ∧
            is_too_similar k (dictKeys [("John", "")]) 2 = false)) :=
  batch_generate_names_returns_all_candidates
    ⟨"P", "", [("chars", [("John", "")])], 0⟩ 0 "chars" [("John", "")]
    "Jon\nAlice" [] (some 10) false (fun _ => ("", 0)) rfl

/-- C4 counterexample: the claim states the returned list contains exactly the
accepted (inserted) candidates; here the returned list contains Jon although
Jon is rejected by the similarity filter and is not inserted into the
category. -/
theorem batch_generate_names_returned_list_refuted :
    batch_generate_names ⟨"P", "", [("chars", [("John", "")])], 0⟩ 0 "chars"
        (.ok ⟨["Jon\nAlice"], some 10⟩) false (fun _ => ("", 0)) =
      .ok (["Jon", "Alice"],
        ⟨"P", "", [("chars", [("John", ""), ("Alice", "")])], 10⟩, 10) ∧
    is_too_similar "Jon" ["John"] 2 = true ∧
    dictFind [("John", ""), ("Alice", "")] "Jon" = none := by
  refine ⟨by rfl, by decide, by rfl⟩

/-- C5: batch avoid-list staleness.  Every parsed candidate is tested only
against the category's pre-call name set: any candidate passing that test ends
up in the category, regardless of which earlier candidates of the same batch
were accepted, so two mutually similar fresh names can both be accepted. -/
theorem batch_generate_names_stale_avoid_list (p : NameProject) (tracker : Nat)
    (category : String) (inner : List (String × String)) (content : String)
    (rest : List String) (usage : Option Nat) (should : Bool)
    (descFor : String → String × Nat)
    (hc : dictFind p.categories category = some inner) :
    ∃ names p2 tr2 inner2,
      batch_generate_names p tracker category (.ok ⟨content :: rest, usage⟩)
          should descFor = .ok (names, p2, tr2) ∧
      dictFind p2.categories category = some inner2 ∧
      ∀ k, k ∈ parseNames content →
        is_too_similar k (dictKeys inner) 2 = false →
        (dictFind inner2 k).isSome = true :=
  ⟨_, _, _, _,
   batch_generate_names_ok p tracker category inner content rest usage should
     descFor hc,
   dictFind_dictUpdate_self _ _ _ _ hc,
   fun k hmem hsim =>
     (batchStep_fold_find (dictKeys inner) should descFor (parseNames content)
       inner 0 k).mpr (Or.inr ⟨hmem, hsim⟩)⟩

/-- C5 witness: Zeb and Zed are within edit distance 1 of each other, but both
are accepted into an empty category in the same batch, since each is checked
only against the pre-call (empty) name set. -/
theorem batch_generate_names_stale_avoid_list_witness :
    (∃ names p2 tr2 inner2,
      batch_generate_names ⟨"P", "", [("c", [])], 0⟩ 0 "c"
          (.ok ⟨["Zeb\nZed"], some 5⟩) false (fun _ => ("", 0)) =
        .ok (names, p2, tr2) ∧
      dictFind p2.categories "c" = some inner2 ∧
      (dictFind inner2 "Zeb").isSome = true ∧
      (dictFind inner2 "Zed").isSome = true) ∧
    is_too_similar "Zeb" ["Zed"] 2 = true := by
  obtain ⟨names, p2, tr2, inner2, h1, h2, h3⟩ :=
    batch_generate_names_stale_avoid_list ⟨"P", "", [("c", [])], 0⟩ 0 "c" []
      "Zeb\nZed" [] (some 5) false (fun _ => ("", 0)) rfl
  exact ⟨⟨names, p2, tr2, inner2, h1, h2,
    h3 "Zeb" (by decide) (by decide), h3 "Zed" (by decide) (by decide)⟩,
    by decide⟩

/-- C6: batch usage attribution.  A successful batch_generate_names call with
reported usage u (and no description generation) increases the project's
token_usage and the shared tracker by exactly u, independently of how many
candidates were parsed or accepted. -/
theorem batch_generate_names_usage_attribution (p : NameProject)
    (tracker : Nat) (category : String) (inner : List (String × String))
    (content : String) (rest : List String) (u : Nat)
    (descFor : String → String × Nat)
    (hc : dictFind p.categories category = some inner) :
    ∃ names p2 tr2,
      batch_generate_names p tracker category (.ok ⟨content :: rest, some u⟩)
          false descFor = .ok (names, p2, tr2) ∧
      p2.token_usage = p.token_usage + u ∧
      tr2 = tracker + u := by
  refine ⟨_, _, _,
    batch_generate_names_ok p tracker category inner content rest (some u)
      false descFor hc, rfl, ?_⟩
  rw [batchStep_fold_snd]
  rfl

/-- C6 witness: the worked example of the spec, three names and usage 50. -/
theorem batch_generate_names_usage_attribution_witness :
    ∃ names p2 tr2,
      batch_generate_names ⟨"W", "", [("forests", [])], 0⟩ 0 "forests"
          (.ok ⟨["Fangorn\nMirkwood\nLothlorien"], some 50⟩) false
          (fun _ => ("", 0)) = .ok (names, p2, tr2) ∧
      p2.token_usage = 0 + 50 ∧
      tr2 = 0 + 50 :=
  batch_generate_names_usage_attribution ⟨"W", "", [("forests", [])], 0⟩ 0
    "forests" [] "Fangorn\nMirkwood\nLothlorien" [] 50 (fun _ => ("", 0)) rfl

theorem dictFind_append_of_none {α : Type} (d1 d2 : List (String × α))
    (k : String) (h : dictFind d1 k = none) :
    dictFind (d1 ++ d2) k = dictFind d2 k := by
  induction d1 with
  | nil => rfl
  | cons a rest ih =>
    obtain ⟨ka, va⟩ := a
    by_cases h1 : ka = k
    · simp [dictFind, h1] at h
    · simp only [dictFind, h1, if_false] at h
      simp only [List.cons_append, dictFind, h1, if_false]
      exact ih h

theorem dictFind_singleton_ne {α : Type} (k k' : String) (v : α)
    (h : k ≠ k') : dictFind [(k, v)] k' = none := by
  simp [dictFind, h]

theorem dictInsert_of_absent {α : Type} (d : List (String × α)) (k : String)
    (v : α) (h : dictFind d k = none) : dictInsert d k v = d ++ [(k, v)] := by
  induction d with
  | nil => rfl
  | cons a rest ih =>
    obtain ⟨ka, va⟩ := a
    by_cases h1 : ka = k
    · simp [dictFind, h1] at h
    · simp only [dictFind, h1, if_false] at h
      simp [dictInsert, h1, ih h]

theorem dictUpdate_append_last {α : Type} (d : List (String × α)) (k : String)
    (b : α) (f : α → α) (h : dictFind d k = none) :
    dictUpdate (d ++ [(k, b)]) k f = d ++ [(k, f b)] := by
  induction d with
  | nil => simp [dictUpdate]
  | cons a rest ih =>
    obtain ⟨ka, va⟩ := a
    by_cases h1 : ka = k
    · simp [dictFind, h1] at h
    · simp only [dictFind, h1, if_false] at h
      simp [dictUpdate, h1, ih h]

theorem foldl_dictInsert_fresh {α : Type} :
    ∀ (entries : List (String × α)) (b : List (String × α)),
      (entries.map Prod.fst).Nodup →
      (∀ kk ∈ entries.map Prod.fst, dictFind b kk = none) →
      entries.foldl (fun bb nd => dictInsert bb nd.1 nd.2) b = b ++ entries := by
  intro entries
  induction entries with
  | nil =>
    intro b _ _
    simp
  | cons nd rest ih =>
    intro b hnodup habs
    obtain ⟨k1, v1⟩ := nd
    have hb1 : dictFind b k1 = none := habs k1 (by simp)
    rw [List.foldl_cons]
    have hstep : dictInsert b k1 v1 = b ++ [(k1, v1)] :=
      dictInsert_of_absent b k1 v1 hb1
    simp only at hstep
    rw [hstep]
    have hnodup2 : (rest.map Prod.fst).Nodup :=
      (List.nodup_cons.mp (by simpa using hnodup)).2
    have hk1 : k1 ∉ rest.map Prod.fst :=
      (List.nodup_cons.mp (by simpa using hnodup)).1
    have habs2 : ∀ kk ∈ rest.map Prod.fst,
        dictFind (b ++ [(k1, v1)]) kk = none := by
      intro kk hkk
      rw [dictFind_append_of_none _ _ _ (habs kk (by simp [hkk]))]
      exact dictFind_singleton_ne k1 kk v1 (fun he => hk1 (he ▸ hkk))
    rw [ih (b ++ [(k1, v1)]) hnodup2 habs2]
    simp

theorem foldl_update_bucket (category : String)
    (d : List (String × List (String × Json)))
    (hd : dictFind d category = none) :
    ∀ (entries : List (String × Json)) (b : List (String × Json)),
      entries.foldl
        (fun dd nd => dictUpdate dd category fun inner => dictInsert inner nd.1 nd.2)
        (d ++ [(category, b)]) =
      d ++ [(category, entries.foldl (fun bb nd => dictInsert bb nd.1 nd.2) b)] := by
  intro entries
  induction entries with
  | nil =>
    intro b
    simp
  | cons nd rest ih =>
    intro b
    rw [List.foldl_cons, List.foldl_cons,
      dictUpdate_append_last d category b _ hd]
    exact ih (dictInsert b nd.1 nd.2)

theorem load_cats_replay :
    ∀ (cats : List (String × List (String × Json)))
      (acc : List (String × List (String × Json))),
      (cats.map Prod.fst).Nodup →
      (∀ c ∈ cats.map Prod.fst, dictFind acc c = none) →
      (∀ ci ∈ cats, (ci.2.map Prod.fst).Nodup) →
      load_cats (cats.map fun ci => (ci.1, Json.obj ci.2)) acc =
        .ok (acc ++ cats) := by
  intro cats
  induction cats with
  | nil =>
    intro acc _ _ _
    simp [load_cats]
  | cons ci rest ih =>
    intro acc hnodup habs hinner
    obtain ⟨c, entries⟩ := ci
    have hacc : dictFind acc c = none := habs c (by simp)
    have hnodup2 : (rest.map Prod.fst).Nodup :=
      (List.nodup_cons.mp (by simpa using hnodup)).2
    have hc : c ∉ rest.map Prod.fst :=
      (List.nodup_cons.mp (by simpa using hnodup)).1
    rw [List.map_cons]
    show load_cats ((c, Json.obj entries) ::
      List.map (fun ci => (ci.1, Json.obj ci.2)) rest) acc =
        Except.ok (acc ++ (c, entries) :: rest)
    rw [load_cats]
    simp only [hacc, Option.isSome_none, Bool.false_eq_true, if_false]
    rw [dictInsert_of_absent acc c [] hacc,
      foldl_update_bucket c acc hacc entries []]
    have hbucket : entries.foldl (fun bb nd => dictInsert bb nd.1 nd.2) [] = entries := by
      have := foldl_dictInsert_fresh entries []
        (hinner (c, entries) (by simp)) (fun kk _ => rfl)
      simpa using this
    rw [hbucket]
    have habs2 : ∀ c2 ∈ rest.map Prod.fst,
        dictFind (acc ++ [(c, entries)]) c2 = none := by
      intro c2 hc2
      rw [dictFind_append_of_none _ _ _ (habs c2 (by simp [hc2]))]
      exact dictFind_singleton_ne c c2 entries (fun he => hc (he ▸ hc2))
    rw [ih (acc ++ [(c, entries)]) hnodup2 habs2
      (fun ci2 hci2 => hinner ci2 (by simp [hci2]))]
    simp

/-- C1: round-trip serialization.  For every project (its category keys and
per-category name keys are duplicate-free, as Python dictionaries guarantee),
loading the file written by save_project yields a project equal to it in name,
description, every category name-to-description mapping, and token_usage. -/
theorem save_load_round_trip (fs : FileSystem) (path : String) (p : NameProject)
    (h1 : (p.categories.map Prod.fst).Nodup)
    (h2 : ∀ ci ∈ p.categories, (ci.2.map Prod.fst).Nodup) :
    load_project (write_file fs path (save_project p)) path =
      .ok (toLoaded p) := by
  have hq1 : (p.categories.map fun ci =>
      (ci.1, ci.2.map fun nd => (nd.1, Json.str nd.2))).map Prod.fst =
      p.categories.map Prod.fst := by
    rw [List.map_map]
    rfl
  have hnodupq : ((p.categories.map fun ci =>
      (ci.1, ci.2.map fun nd => (nd.1, Json.str nd.2))).map Prod.fst).Nodup := by
    rw [hq1]
    exact h1
  have hinnerq : ∀ ci ∈ (p.categories.map fun ci =>
      (ci.1, ci.2.map fun nd => (nd.1, Json.str nd.2))),
      (ci.2.map Prod.fst).Nodup := by
    intro ci hci
    obtain ⟨co, hco, rfl⟩ := List.mem_map.mp hci
    have := h2 co hco
    simpa [List.map_map] using this
  have hload := load_cats_replay
    (p.categories.map fun ci => (ci.1, ci.2.map fun nd => (nd.1, Json.str nd.2)))
    [] hnodupq (fun c _ => rfl) hinnerq
  have hmapped : ((p.categories.map fun ci =>
      (ci.1, ci.2.map fun nd => (nd.1, Json.str nd.2))).map fun ci =>
        (ci.1, Json.obj ci.2)) =
      p.categories.map fun ci =>
        (ci.1, Json.obj (ci.2.map fun nd => (nd.1, Json.str nd.2))) := by
    rw [List.map_map]
    rfl
  rw [hmapped] at hload
  simp [load_project, write_file, save_project, dictFind, hload, toLoaded]

/-- C1 witness: a concrete project with two categories, one empty, and an
empty-string description. -/
theorem save_load_round_trip_witness :
    load_project
      (write_file (fun _ => none) "world.json"
        (save_project
          ⟨"W", "d", [("chars", [("Aria", ""), ("Bob", "x")]), ("places", [])], 42⟩))
      "world.json" =
      .ok (toLoaded
        ⟨"W", "d", [("chars", [("Aria", ""), ("Bob", "x")]), ("places", [])], 42⟩) :=
  save_load_round_trip (fun _ => none) "world.json"
    ⟨"W", "d", [("chars", [("Aria", ""), ("Bob", "x")]), ("places", [])], 42⟩
    (by decide) (by decide)

theorem load_cats_result :
    ∀ (cats : List (String × Json)) (acc : List (String × List (String × Json))),
      (∃ d, load_cats cats acc = .ok d) ∨
        load_cats cats acc = .error .attributeError := by
  intro cats
  induction cats with
  | nil =>
    intro acc
    exact Or.inl ⟨acc, rfl⟩
  | cons cv rest ih =>
    intro acc
    obtain ⟨c, v⟩ := cv
    cases v with
    | obj entries =>
      rw [load_cats]
      exact ih _
    | null => exact Or.inr rfl
    | bool b => exact Or.inr rfl
    | num n => exact Or.inr rfl
    | str s => exact Or.inr rfl
    | arr xs => exact Or.inr rfl

/-- C8 (amended): load_project raises FileNotFoundError exactly when the path
is missing.  A present file that fails to parse, or parses to an object
missing the name or categories key, raises ValueError.  But a file in the
legacy schema, whose categories are lists rather than objects, raises
AttributeError, which is neither the FileNotFoundError kind nor the ValueError
kind the code uses for validation failures. -/
theorem load_project_error_discrimination (fs : FileSystem) (path : String) :
    (load_project fs path = .error .fileNotFoundError ↔ fs path = none) ∧
    (fs path = some none → load_project fs path = .error .valueError) ∧
    (∀ fields, fs path = some (some (.obj fields)) →
      dictFind fields "name" = none →
      load_project fs path = .error .valueError) ∧
    (∀ fields nameJ, fs path = some (some (.obj fields)) →
      dictFind fields "name" = some nameJ →
      dictFind fields "categories" = none →
      load_project fs path = .error .valueError) ∧
    (∀ (nameJ tuJ : Json) (c : String) (l : List Json),
      fs path = some (some (.obj [("name", nameJ),
        ("categories", .obj [(c, .arr l)]), ("token_usage", tuJ)])) →
      load_project fs path = .error .attributeError) := by
  refine ⟨?_, ?_, ?_, ?_, ?_⟩
  · cases hfs : fs path with
    | none => simp [load_project, hfs]
    | some o =>
      cases o with
      | none => simp [load_project, hfs]
      | some j =>
        cases j with
        | obj fields =>
          cases hn : dictFind fields "name" with
          | none => simp [load_project, hfs, hn]
          | some nameJ =>
            cases hc : dictFind fields "categories" with
            | none => simp [load_project, hfs, hn, hc]
            | some catsJ =>
              cases catsJ with
              | obj cats =>
                rcases load_cats_result cats [] with ⟨d, hd⟩ | hd <;>
                  simp [load_project, hfs, hn, hc, hd]
              | null => simp [load_project, hfs, hn, hc]
              | bool b => simp [load_project, hfs, hn, hc]
              | num n => simp [load_project, hfs, hn, hc]
              | str s => simp [load_project, hfs, hn, hc]
              | arr xs => simp [load_project, hfs, hn, hc]
        | null => simp [load_project, hfs]
        | bool b => simp [load_project, hfs]
        | num n => simp [load_project, hfs]
        | str s => simp [load_project, hfs]
        | arr xs => simp [load_project, hfs]
  · intro h
    simp [load_project, h]
  · intro fields h hn
    simp [load_project, h, hn]
  · intro fields nameJ h hn hc
    simp [load_project, h, hn, hc]
  · intro nameJ tuJ c l h
    simp [load_project, h, dictFind, load_cats]

/-- C8 witness: a missing path gives FileNotFoundError, an object without the
name key and an object without the categories key give ValueError, and a
concrete legacy file gives AttributeError. -/
theorem load_project_error_discrimination_witness :
    load_project (fun _ => none) "missing.json" = .error .fileNotFoundError ∧
    load_project (fun _ => some (some (.obj [("categories", .obj [])])))
      "noname.json" = .error .valueError ∧
    load_project (fun _ => some (some (.obj [("name", .str "w")])))
      "nocats.json" = .error .valueError ∧
    load_project
      (fun _ => some (some (.obj [("name", .str "old"),
        ("categories", .obj [("c", .arr [.str "Aria"])]),
        ("token_usage", .num 3)]))) "legacy.json" = .error .attributeError :=
  ⟨(load_project_error_discrimination (fun _ => none) "missing.json").1.mpr rfl,
   (load_project_error_discrimination
      (fun _ => some (some (.obj [("categories", .obj [])])))
      "noname.json").2.2.1 [("categories", .obj [])] rfl rfl,
   (load_project_error_discrimination
      (fun _ => some (some (.obj [("name", .str "w")])))
      "nocats.json").2.2.2.1 [("name", .str "w")] (.str "w") rfl rfl rfl,
   (load_project_error_discrimination
      (fun _ => some (some (.obj [("name", .str "old"),
        ("categories", .obj [("c", .arr [.str "Aria"])]),
        ("token_usage", .num 3)]))) "legacy.json").2.2.2.2
     (.str "old") (.num 3) "c" [.str "Aria"] rfl⟩

/-- C8 counterexample: the claim states that an existing but structurally
invalid file always raises the validation-error kind; the legacy list-valued
schema instead raises AttributeError, while an unparsable file raises
ValueError, two different kinds. -/
theorem load_project_legacy_schema_refuted :
    load_project
      (fun _ => some (some (.obj [("name", .str "old"),
        ("categories", .obj [("c", .arr [.str "Aria"])]),
        ("token_usage", .num 3)]))) "p.json" = .error .attributeError ∧
    load_project (fun _ => some none) "p.json" = .error .valueError ∧
    PyErr.attributeError ≠ PyErr.valueError := by
  refine ⟨by rfl, by rfl, by decide⟩

end Namegiver
